import Mathlib

/-!
Verification of the virtual display driver in src/drm/driver/vkms/vkms_drv.c
(vsync generation and commit-completion synchronization core).

The embedding keeps the source's names where possible.  Time is modelled in
nanoseconds on the monotonic clock as `Nat`.  External collaborator functions
(the hrtimer substrate and the DRM vblank helpers) are modelled from their
documented contracts, since they are not part of this repository; every
function of the repository itself is translated line by line from the source.
-/

namespace Vkms

/-- Nominal vblank period in nanoseconds: the literal 16666667 appearing in
vkms_vblank_simulate (line 31) and vkms_enable_vblank (line 42). -/
def period : Nat := 16666667

/-- Collaborator (linux hrtimer substrate): hrtimer_forward advances the
timer's expiry from `expiry` in multiples of `interval` until the result is
strictly after `now`; if `now` is before the expiry, nothing changes.  In
natural-number arithmetic this is: unchanged when `now < expiry`, otherwise
`expiry + ((now - expiry) / interval) * interval + interval`.
`hrtimer_forward_now` is this with `now` the current time. -/
def hrtimer_forward (expiry interval now : Nat) : Nat :=
  if now < expiry then expiry
  else expiry + ((now - expiry) / interval) * interval + interval

/-- Return value of an hrtimer callback. -/
inductive HrtimerRestart
  | restart
  | norestart
deriving DecidableEq, Repr

/-- Atomic observable actions performed inside the vblank timer callback. -/
inductive CbAct
  | handleVblank
  | forwardNow (newExpiry : Nat)
  | ret (r : HrtimerRestart)
deriving DecidableEq, Repr

/-- vkms_vblank_simulate (lines 24-34), as the ordered list of the actions the
callback performs when it runs with armed expiry `expiry` at time `now`:
drm_crtc_handle_vblank, then hrtimer_forward_now by the fixed period, then
return HRTIMER_RESTART. -/
def vkms_vblank_simulate (expiry now : Nat) : List CbAct :=
  [CbAct.handleVblank,
   CbAct.forwardNow (hrtimer_forward expiry period now),
   CbAct.ret HrtimerRestart.restart]

/-- Clock selector passed to hrtimer_init. -/
inductive ClockId
  | monotonic
  | realtime
deriving DecidableEq, Repr

/-- Timer mode passed to hrtimer_init / hrtimer_start. -/
inductive HrtimerMode
  | rel
  | abs
deriving DecidableEq, Repr

/-- Which callback function is installed in the timer. -/
inductive TimerFn
  | uninit
  | vkmsVblankSimulate
deriving DecidableEq, Repr

/-- The hrtimer object embedded in struct vkms_device (line 20). -/
structure Hrtimer where
  clockid : ClockId
  mode : HrtimerMode
  func : TimerFn
  expires : Nat
  armed : Bool
deriving DecidableEq, Repr

/-- Collaborator: hrtimer_init re-initializes the timer object from scratch
with the given clock and mode; no callback installed, not armed. -/
def hrtimer_init (clk : ClockId) (m : HrtimerMode) : Hrtimer :=
  { clockid := clk, mode := m, func := TimerFn.uninit, expires := 0,
    armed := false }

/-- Collaborator: hrtimer_start with a relative deadline arms the timer to
fire at `now + rel`. -/
def hrtimer_start (t : Hrtimer) (now rel : Nat) : Hrtimer :=
  { t with expires := now + rel, armed := true }

/-- Collaborator: hrtimer_cancel synchronously cancels the timer (waits for a
running callback, then deactivates); the resulting state is disarmed.  The
blocking aspect is modelled separately in the interleaving semantics below. -/
def hrtimer_cancel (t : Hrtimer) : Hrtimer :=
  { t with armed := false }

/-- vkms_enable_vblank (lines 36-45): hrtimer_init on CLOCK_MONOTONIC in
relative mode, install vkms_vblank_simulate as the callback, hrtimer_start
one period from now, and return 0.  The previous timer state `t` is
discarded entirely. -/
def vkms_enable_vblank (now : Nat) (_t : Hrtimer) : Hrtimer × Int :=
  let t1 := hrtimer_init ClockId.monotonic HrtimerMode.rel
  let t2 := { t1 with func := TimerFn.vkmsVblankSimulate }
  (hrtimer_start t2 now period, 0)

/-- vkms_disable_vblank (lines 47-52): hrtimer_cancel on the device timer. -/
def vkms_disable_vblank (t : Hrtimer) : Hrtimer :=
  hrtimer_cancel t

/-- Externally observable signals emitted by the driver: the vsync-occurred
signal (drm_crtc_handle_vblank, line 29) and delivery of a commit-completion
token (drm_crtc_send_vblank_event, line 84).  Tokens are names of the
userspace events carried by commits; their identity is all that matters. -/
inductive Ev
  | vsync
  | deliver (token : Nat)
deriving DecidableEq, Repr

/-- vkms_crtc_atomic_flush (lines 77-89) applied to a commit whose
crtc->state->event is `ev`: when an event is present, it is sent immediately
with drm_crtc_send_vblank_event under the device event lock, and the slot is
cleared (crtc->state->event = NULL).  Returns the cleared slot and the
signals emitted. -/
def vkms_crtc_atomic_flush (ev : Option Nat) : Option Nat × List Ev :=
  match ev with
  | some t => (none, [Ev.deliver t])
  | none => (none, [])

end Vkms

namespace Vkms

/-! Device-level sequential semantics: one step per entry point of the
driver, with the list of signals each step emits.  The timer is either
stopped (cancelled) or running with a next-fire deadline. -/

/-- State of the device's vblank hrtimer as a scheduler entity. -/
inductive TimerState
  | stopped
  | running (expires : Nat)
deriving DecidableEq, Repr

/-- Global device state for the sequential semantics: whether vblanks are
enabled (the DRM vblank machinery's flag, toggled by drm_crtc_vblank_on and
drm_crtc_vblank_off), the timer, and the current monotonic time. -/
structure Dev where
  enabled : Bool
  timer : TimerState
  time : Nat
deriving DecidableEq, Repr

/-- Entry points reaching the driver: enable and disable of the output,
an atomic commit carrying an optional completion event (its flush step), and
an expiry of the armed timer, `late` nanoseconds after its deadline. -/
inductive Act
  | enable
  | disable
  | commit (ev : Option Nat)
  | fire (late : Nat)
deriving DecidableEq, Repr

/-- One step of the device.  enable/disable are guarded by the DRM vblank
enabled flag (collaborator contract of drm_crtc_vblank_on/off: already-on and
already-off calls do not reach the driver hooks); enable runs
vkms_enable_vblank (arming the timer one period out), disable runs
vkms_disable_vblank (hrtimer_cancel).  A commit's flush step emits exactly
what vkms_crtc_atomic_flush emits.  A fire step runs vkms_vblank_simulate:
vsync signal, forward the deadline past now by whole periods, restart;
a cancelled (stopped) timer never fires. -/
def step (d : Dev) (a : Act) : Dev × List Ev :=
  match a with
  | Act.enable =>
      if d.enabled then (d, [])
      else ({ d with enabled := true, timer := TimerState.running (d.time + period) }, [])
  | Act.disable =>
      if d.enabled then ({ d with enabled := false, timer := TimerState.stopped }, [])
      else (d, [])
  | Act.commit ev => (d, (vkms_crtc_atomic_flush ev).2)
  | Act.fire late =>
      match d.timer with
      | TimerState.stopped => (d, [])
      | TimerState.running e =>
          ({ d with time := e + late,
                    timer := TimerState.running (hrtimer_forward e period (e + late)) },
           [Ev.vsync])

/-- Initial device state: output disabled, timer stopped, time zero. -/
def initDev : Dev :=
  { enabled := false, timer := TimerState.stopped, time := 0 }

/-- Run a list of actions, recording each action with the signals its step
emitted. -/
def runLog : Dev → List Act → List (Act × List Ev)
  | _, [] => []
  | d, a :: as => (a, (step d a).2) :: runLog (step d a).1 as

/-- All signals emitted along a log, in order. -/
def logEv (l : List (Act × List Ev)) : List Ev :=
  (l.map Prod.snd).flatten

/-- Recognizer for delivery signals. -/
def isDeliver : Ev → Bool
  | Ev.deliver _ => true
  | _ => false

/-- Recognizer for fire actions. -/
def isFire : Act → Bool
  | Act.fire _ => true
  | _ => false

/-- The delivery discipline claimed by the spec, as a predicate on a log:
every step that emits a delivery signal is a fire step (deliveries happen
only on vblank firings). -/
def deliversOnlyAtFirings (l : List (Act × List Ev)) : Bool :=
  l.all (fun p => !(p.2.any isDeliver) || isFire p.1)

end Vkms

namespace Vkms

/-! Static mode, resolution and format constants (connector and mode-config
initialization). -/

/-- DRM_FORMAT_XRGB8888, the fourcc code of the characters X, R, 2, 4 packed
little-endian. -/
def DRM_FORMAT_XRGB8888 : Nat := 0x34325258

/-- vkms_formats (lines 159-161): the plane's supported format array,
containing exactly DRM_FORMAT_XRGB8888. -/
def vkms_formats : List Nat := [DRM_FORMAT_XRGB8888]

/-- Resolution bounds installed on the mode configuration. -/
structure ModeConfigBounds where
  min_width : Nat
  min_height : Nat
  max_width : Nat
  max_height : Nat
deriving DecidableEq, Repr

/-- vkms_modeset_init (lines 212-227): min 32x32, max 8192x8192. -/
def vkms_mode_config : ModeConfigBounds :=
  { min_width := 32, min_height := 32, max_width := 8192, max_height := 8192 }

/-- What the connector's get_modes hook advertises: the bound passed to
drm_add_modes_noedid and the single mode marked preferred by
drm_set_preferred_mode. -/
structure ConnectorModes where
  noedidMaxW : Nat
  noedidMaxH : Nat
  preferredW : Nat
  preferredH : Nat
deriving DecidableEq, Repr

/-- vkms_conn_get_modes (lines 131-139): drm_add_modes_noedid up to
8192x8192, preferred mode 1024x768. -/
def vkms_conn_get_modes : ConnectorModes :=
  { noedidMaxW := 8192, noedidMaxH := 8192, preferredW := 1024, preferredH := 768 }

/-- Outcome of module initialization. -/
inductive InitOutcome
  | ok (ret : Int)
  | nullDeref
deriving DecidableEq, Repr

/-- vkms_init (lines 231-246).  The result of kzalloc is stored into the
global and then dereferenced by drm_dev_init(&vkms->drm, ...) without any
NULL check; on allocation failure the very next statement dereferences the
null pointer.  On success every subsequent call is made and 0 is returned
unconditionally (there is no error path at all in the function). -/
def vkms_init (allocOk : Bool) : InitOutcome :=
  if allocOk then InitOutcome.ok 0 else InitOutcome.nullDeref

end Vkms

namespace Vkms

/-! Interleaving semantics of the timer against cancellation, for the
blocking contract of hrtimer_cancel: a firing callback is split into its
begin (the scheduler dequeues the expired timer and enters the callback) and
its end (the callback body has run vkms_vblank_simulate: vsync signal, then
re-arm via HRTIMER_RESTART).  hrtimer_cancel may only return at a point where
no callback is in flight, and it leaves the timer disarmed — the documented
contract that cancellation waits for a running callback and then deactivates
the timer, retrying if the callback re-armed it. -/

/-- Concurrency-level timer state: whether a deadline is armed and whether a
firing callback is currently executing. -/
structure CSt where
  armed : Bool
  inflight : Bool
deriving DecidableEq, Repr

/-- Concurrency-level actions: arming via the enable path, the two halves of
a firing, and the return of hrtimer_cancel from the disable path. -/
inductive CAct
  | timerStart
  | fireBegin
  | fireEnd
  | cancelRet
deriving DecidableEq, Repr

/-- Labelled steps of the interleaving semantics.  fireBegin requires an
armed timer and dequeues it; fireEnd emits the vsync signal and re-arms
(vkms_vblank_simulate returns HRTIMER_RESTART); cancelRet requires that no
callback is in flight (hrtimer_cancel blocks until the callback finishes)
and leaves the timer disarmed and idle. -/
inductive CStep : CSt → CAct → List Ev → CSt → Prop
  | timerStart (s : CSt) :
      CStep s CAct.timerStart [] ⟨true, s.inflight⟩
  | fireBegin (s : CSt) (ha : s.armed = true) (hi : s.inflight = false) :
      CStep s CAct.fireBegin [] ⟨false, true⟩
  | fireEnd (s : CSt) (hi : s.inflight = true) :
      CStep s CAct.fireEnd [Ev.vsync] ⟨true, false⟩
  | cancelRet (s : CSt) (hi : s.inflight = false) :
      CStep s CAct.cancelRet [] ⟨false, false⟩

/-- Finite traces of the interleaving semantics, recording each action with
the signals it emitted. -/
inductive CTrace : CSt → List (CAct × List Ev) → CSt → Prop
  | nil (s : CSt) : CTrace s [] s
  | cons {s s1 s2 : CSt} {a : CAct} {evs : List Ev} {tr : List (CAct × List Ev)} :
      CStep s a evs s1 → CTrace s1 tr s2 → CTrace s ((a, evs) :: tr) s2

/-! The commit-event channel.  In the source the channel is the single
pointer crtc->state->event: the consuming side is vkms_crtc_atomic_flush
(send the event, then set the pointer to NULL); the depositing side lives in
the host framework's commit machinery, outside this repository, so it is
modelled from the spec. -/

/-- Result of a deposit attempt. -/
inductive DepositResult
  | ok
  | alreadyPending
deriving DecidableEq, Repr

/-- Modelled from the spec: CommitEventChannel.deposit, the commit-execution
path that stores a completion token into the single slot; this path is the
host framework's commit machinery, which is not part of this repository.
Per the spec it fails with AlreadyPending when a token is already stored,
leaving the stored token untouched, and stores the token otherwise. -/
def deposit (slot : Option Nat) (t : Nat) : Option Nat × DepositResult :=
  match slot with
  | some u => (some u, DepositResult.alreadyPending)
  | none => (some t, DepositResult.ok)

/-- CommitEventChannel.try_take, from the consuming half of
vkms_crtc_atomic_flush: atomically remove and return the stored token if
present (send then crtc->state->event = NULL). -/
def tryTake (slot : Option Nat) : Option Nat × Option Nat :=
  (none, slot)

/-- An operation on the channel: a deposit of a token, or a take. -/
inductive ChanOp
  | dep (t : Nat)
  | take
deriving DecidableEq, Repr

/-- Effect of one channel operation on the slot. -/
def chanStep (slot : Option Nat) : ChanOp → Option Nat
  | ChanOp.dep t => (deposit slot t).1
  | ChanOp.take => (tryTake slot).1

/-- Effect of a sequence of channel operations on the slot.  The deposit and
take paths are serialized by one exclusion primitive (the device event lock),
so every concurrent history is equivalent to such a sequence. -/
def chanRun (slot : Option Nat) : List ChanOp → Option Nat
  | [] => slot
  | op :: ops => chanRun (chanStep slot op) ops

/-- Number of tokens the channel holds. -/
def pendingCount : Option Nat → Nat
  | none => 0
  | some _ => 1

/-! Pipeline-level enable/disable.  vkms_crtc_atomic_enable and
vkms_crtc_atomic_disable (lines 65-75) forward to drm_crtc_vblank_on and
drm_crtc_vblank_off; those collaborators are modelled from their documented
contract (and spec section 4.3): they track the vblank enabled flag and call
the driver's enable_vblank / disable_vblank hooks only on an actual
off-to-on / on-to-off transition, so a redundant call is a no-op. -/

/-- Pipeline state: the DRM vblank enabled flag, the device hrtimer, and
counters of how many times each driver hook has run, to make double-start /
double-stop observable. -/
structure Pipe where
  vblankOn : Bool
  timer : Hrtimer
  startCalls : Nat
  stopCalls : Nat
deriving DecidableEq, Repr

/-- vkms_crtc_atomic_enable (lines 65-69) through drm_crtc_vblank_on: when
the output is already enabled nothing happens; otherwise the enabled flag is
set and vkms_enable_vblank runs (re-initializing and starting the timer). -/
def vkms_crtc_atomic_enable (now : Nat) (p : Pipe) : Pipe :=
  if p.vblankOn then p
  else
    { vblankOn := true, timer := (vkms_enable_vblank now p.timer).1,
      startCalls := p.startCalls + 1, stopCalls := p.stopCalls }

/-- vkms_crtc_atomic_disable (lines 71-75) through drm_crtc_vblank_off: when
the output is already disabled nothing happens; otherwise the enabled flag is
cleared and vkms_disable_vblank runs (hrtimer_cancel). -/
def vkms_crtc_atomic_disable (p : Pipe) : Pipe :=
  if p.vblankOn then
    { vblankOn := false, timer := vkms_disable_vblank p.timer,
      startCalls := p.startCalls, stopCalls := p.stopCalls + 1 }
  else p

end Vkms

namespace Vkms

/-- C7: the claim says a failed top-level allocation is reported upward as a
non-success result and activation aborts cleanly.  The code never checks the
kzalloc result: on allocation failure it dereferences the null pointer inside
drm_dev_init instead of returning an error, and its only return statement
returns 0.  The spec states the clear intent (and kernel convention); the
missing check is a slip in the code. -/
theorem C7_alloc_unchecked :
    vkms_init false = InitOutcome.nullDeref ∧
    ∀ r : Int, vkms_init false ≠ InitOutcome.ok r := by
  refine ⟨rfl, ?_⟩
  intro r h
  simp [vkms_init] at h

/-- C8: the connector/sink reports exactly one preferred mode of 1024x768, a
resolution range from 32x32 up to 8192x8192, and exactly one supported pixel
format (XRGB8888), all as static constants. -/
theorem C8_static_reporting :
    vkms_conn_get_modes.preferredW = 1024 ∧
    vkms_conn_get_modes.preferredH = 768 ∧
    vkms_conn_get_modes.noedidMaxW = 8192 ∧
    vkms_conn_get_modes.noedidMaxH = 8192 ∧
    vkms_mode_config.min_width = 32 ∧
    vkms_mode_config.min_height = 32 ∧
    vkms_mode_config.max_width = 8192 ∧
    vkms_mode_config.max_height = 8192 ∧
    vkms_formats = [DRM_FORMAT_XRGB8888] ∧
    vkms_formats.length = 1 := by
  decide

/-- C10: vkms_enable_vblank returns 0 on every invocation and re-initializes
the timer object from scratch — monotonic clock, relative mode, the
vkms_vblank_simulate callback, a fresh one-shot deadline one period from now,
armed — independently of whatever state the timer object held before. -/
theorem C10_enable_reinit (now : Nat) (t u : Hrtimer) :
    (vkms_enable_vblank now t).2 = 0 ∧
    (vkms_enable_vblank now t).1 = (vkms_enable_vblank now u).1 ∧
    (vkms_enable_vblank now t).1 =
      ⟨ClockId.monotonic, HrtimerMode.rel, TimerFn.vkmsVblankSimulate,
       now + period, true⟩ := by
  refine ⟨rfl, rfl, rfl⟩

/-- An enable step emits no signals. -/
theorem step_enable_snd (d : Dev) : (step d Act.enable).2 = [] := by
  cases hd : d.enabled <;> simp [step, hd]

/-- A disable step emits no signals. -/
theorem step_disable_snd (d : Dev) : (step d Act.disable).2 = [] := by
  cases hd : d.enabled <;> simp [step, hd]

/-- A fire step emits either nothing (stopped timer) or exactly the vsync
signal. -/
theorem step_fire_snd (d : Dev) (late : Nat) :
    (step d (Act.fire late)).2 = [] ∨ (step d (Act.fire late)).2 = [Ev.vsync] := by
  cases htimer : d.timer with
  | stopped => left; simp [step, htimer]
  | running e => right; simp [step, htimer]

/-- No fire step ever emits a delivery signal. -/
theorem fire_no_deliver (d : Dev) (late u : Nat) :
    Ev.deliver u ∉ (step d (Act.fire late)).2 := by
  rcases step_fire_snd d late with h | h <;> rw [h] <;> simp

/-- Along any run, the number of delivery signals for token `t` equals the
number of commits carrying token `t`. -/
theorem deliverCount (t : Nat) (acts : List Act) : ∀ (d : Dev),
    (logEv (runLog d acts)).count (Ev.deliver t) =
      acts.count (Act.commit (some t)) := by
  induction acts with
  | nil => intro d; simp [runLog, logEv]
  | cons a as ih =>
      intro d
      have hlog : logEv (runLog d (a :: as)) =
          (step d a).2 ++ logEv (runLog (step d a).1 as) := by
        simp [runLog, logEv]
      rw [hlog, List.count_append, ih]
      cases a with
      | enable => rw [step_enable_snd]; simp [List.count_cons]
      | disable => rw [step_disable_snd]; simp [List.count_cons]
      | commit ev =>
          cases ev with
          | none => simp [step, vkms_crtc_atomic_flush, List.count_cons]
          | some u =>
              by_cases hu : u = t
              · subst hu
                simp [step, vkms_crtc_atomic_flush, List.count_cons]
                omega
              · simp [step, vkms_crtc_atomic_flush, List.count_cons, hu,
                      Ne.symm hu]
      | fire late =>
          rcases step_fire_snd d late with hf | hf <;> rw [hf] <;>
            simp [List.count_cons]

/-- C1 counterexample: the claim says a deposited completion token is
delivered on the first vblank firing at or after the deposit, never before
any firing.  In the run enable-then-commit-token-7, the token is delivered
during the commit's flush step itself — vkms_crtc_atomic_flush sends the
event immediately — although no firing has occurred at all, so the
delivered-only-at-firings discipline is violated. -/
theorem C1_counterexample :
    deliversOnlyAtFirings (runLog initDev [Act.enable, Act.commit (some 7)]) = false ∧
    runLog initDev [Act.enable, Act.commit (some 7)] =
      [(Act.enable, []), (Act.commit (some 7), [Ev.deliver 7])] := by
  decide

/-- C1 amended: a commit carrying a completion token has its notification
delivered immediately and synchronously during the flush step itself,
exactly once, with the event slot cleared, independent of vblank firings;
the firing path never delivers completion notifications. -/
theorem C1_amended_immediate_delivery (d : Dev) (t late : Nat) :
    (step d (Act.commit (some t))).2 = [Ev.deliver t] ∧
    (step d (Act.commit (some t))).1 = d ∧
    (vkms_crtc_atomic_flush (some t)).1 = none ∧
    ∀ u, Ev.deliver u ∉ (step d (Act.fire late)).2 := by
  exact ⟨rfl, rfl, rfl, fun u => fire_no_deliver d late u⟩

/-- C2: along any run, every deposited token produces exactly one completion
notification (one delivery per commit carrying that token, and tokens never
deposited are never delivered: the delivery count equals the deposit count
for every token); a vblank firing delivers nothing and performs at most the
vsync-occurred signal, whether or not a token is pending. -/
theorem C2_exactly_once (d e : Dev) (acts : List Act) (t late : Nat) :
    (logEv (runLog d acts)).count (Ev.deliver t) =
      acts.count (Act.commit (some t)) ∧
    (∀ u, Ev.deliver u ∉ (step e (Act.fire late)).2) ∧
    ((step e (Act.fire late)).2 = [] ∨ (step e (Act.fire late)).2 = [Ev.vsync]) := by
  exact ⟨deliverCount t acts d, fun u => fire_no_deliver e late u,
         step_fire_snd e late⟩

/-- C3 counterexample: the claim says the callback reschedules the next
deadline as the current fire time plus the fixed period — forward from the
actual fire time, not from the scheduled deadline.  At a firing of the
deadline-0 timer occurring late at time 1000, the callback reschedules to
16666667, which is the original deadline plus one period, and not to
1000 + 16666667 = 16667667, the fire time plus one period: the code
advances along the original deadline's grid, the policy the claim
excludes. -/
theorem C3_counterexample :
    vkms_vblank_simulate 0 1000 =
      [CbAct.handleVblank, CbAct.forwardNow 16666667,
       CbAct.ret HrtimerRestart.restart] ∧
    hrtimer_forward 0 period 1000 = 0 + 16666667 ∧
    hrtimer_forward 0 period 1000 ≠ 1000 + 16666667 := by
  decide

/-- C3 amended: when the timer callback runs with deadline `e` at time
`now`, it performs, in order, the vsync signal, the reschedule via
hrtimer_forward_now with the fixed 16666667-ns period, and the
HRTIMER_RESTART return; the reschedule advances the deadline along the
original deadline's grid, in whole multiples of the period, to the smallest
grid point strictly after the fire time — forward-from-scheduled with
missed periods skipped, so an on-time firing yields exactly deadline plus
period, and even a late firing lands strictly in the future within one
period of the fire time (never a catch-up burst, no compounding drift). -/
theorem C3_grid_reschedule (e now : Nat) (h : e ≤ now) :
    vkms_vblank_simulate e now =
      [CbAct.handleVblank, CbAct.forwardNow (hrtimer_forward e period now),
       CbAct.ret HrtimerRestart.restart] ∧
    hrtimer_forward e period now = e + ((now - e) / period + 1) * period ∧
    e + ((now - e) / period) * period ≤ now ∧
    (now = e → hrtimer_forward e period now = e + period) ∧
    now < hrtimer_forward e period now ∧
    hrtimer_forward e period now ≤ now + period := by
  have hfwd : hrtimer_forward e period now =
      e + ((now - e) / 16666667) * 16666667 + 16666667 := by
    simp only [hrtimer_forward, period]
    rw [if_neg (by omega)]
  refine ⟨rfl, ?_, ?_, ?_, ?_, ?_⟩
  · rw [hfwd]
    simp only [period]
    omega
  · simp only [period]
    omega
  · intro hne
    rw [hfwd]
    simp only [period]
    omega
  · rw [hfwd]
    omega
  · rw [hfwd]
    simp only [period]
    omega

/-- Witness for C3 at a firing of the deadline-0 timer occurring late at
time 1000. -/
theorem C3_grid_reschedule_witness :
    (0 : Nat) ≤ 1000 ∧
    (vkms_vblank_simulate 0 1000 =
      [CbAct.handleVblank, CbAct.forwardNow (hrtimer_forward 0 period 1000),
       CbAct.ret HrtimerRestart.restart] ∧
     hrtimer_forward 0 period 1000 = 0 + ((1000 - 0) / period + 1) * period ∧
     0 + ((1000 - 0) / period) * period ≤ 1000 ∧
     ((1000 : Nat) = 0 → hrtimer_forward 0 period 1000 = 0 + period) ∧
     1000 < hrtimer_forward 0 period 1000 ∧
     hrtimer_forward 0 period 1000 ≤ 1000 + period) :=
  ⟨by decide, C3_grid_reschedule 0 1000 (by decide)⟩

/-- If a step from the idle, cancelled timer state is not a start, it can
only be a (repeated) cancel: it emits nothing and stays idle. -/
theorem cstep_from_idle {a : CAct} {evs : List Ev} {s1 : CSt}
    (h : CStep ⟨false, false⟩ a evs s1) (hna : a ≠ CAct.timerStart) :
    a = CAct.cancelRet ∧ evs = [] ∧ s1 = ⟨false, false⟩ := by
  cases h with
  | timerStart => exact absurd rfl hna
  | fireBegin ha hi => simp at ha
  | fireEnd hi => simp at hi
  | cancelRet hi => exact ⟨rfl, rfl, rfl⟩

/-- From the idle, cancelled state — exactly the state hrtimer_cancel leaves
behind — a trace containing no start action emits no signals at all. -/
theorem quietTrace : ∀ {tr : List (CAct × List Ev)} {s : CSt},
    CTrace ⟨false, false⟩ tr s →
    (∀ p ∈ tr, p.1 ≠ CAct.timerStart) → ∀ p ∈ tr, p.2 = [] := by
  intro tr
  induction tr with
  | nil =>
      intro s _ _ p hp
      exact absurd hp (List.not_mem_nil p)
  | cons hd tl ih =>
      intro s h hns p hp
      cases h with
      | cons hstep htr =>
          obtain ⟨ha, hevs, hs1⟩ :=
            cstep_from_idle hstep (hns _ (List.mem_cons_self _ _))
          subst hevs
          rcases List.mem_cons.mp hp with hp1 | hp2
          · rw [hp1]
          · rw [hs1] at htr
            exact ih htr (fun q hq => hns q (List.mem_cons_of_mem _ hq)) p hp2

/-- C4: the cancellation performed by the disable path is synchronous — it
can only return at a point where no firing callback is in flight (it blocks
until an in-flight callback completes), and it leaves the timer disarmed and
idle with nothing emitted; and from that post-cancel state, as long as no
re-enable (start) occurs, no vsync-occurred or delivery signal is ever
observed again, in any interleaving. -/
theorem C4_disable_synchronous :
    (∀ (s : CSt) (evs : List Ev) (s2 : CSt),
        CStep s CAct.cancelRet evs s2 →
        s.inflight = false ∧ s2 = ⟨false, false⟩ ∧ evs = []) ∧
    (∀ (tr : List (CAct × List Ev)) (s : CSt),
        CTrace ⟨false, false⟩ tr s →
        (∀ p ∈ tr, p.1 ≠ CAct.timerStart) → ∀ p ∈ tr, p.2 = []) := by
  constructor
  · intro s evs s2 h
    cases h with
    | cancelRet hi => exact ⟨hi, rfl, rfl⟩
  · intro tr s h hns
    exact quietTrace h hns

/-- Witness for C4: a cancel returning past an armed timer with no callback
in flight, and the singleton post-cancel trace consisting of a repeated
cancel, which emits nothing. -/
theorem C4_disable_synchronous_witness :
    ((⟨true, false⟩ : CSt).inflight = false ∧
     (⟨false, false⟩ : CSt) = (⟨false, false⟩ : CSt) ∧ ([] : List Ev) = []) ∧
    ((CAct.cancelRet, ([] : List Ev)).2 = []) :=
  ⟨C4_disable_synchronous.1 ⟨true, false⟩ [] ⟨false, false⟩
     (CStep.cancelRet ⟨true, false⟩ rfl),
   C4_disable_synchronous.2 [(CAct.cancelRet, [])] ⟨false, false⟩
     (CTrace.cons (CStep.cancelRet ⟨false, false⟩ rfl) (CTrace.nil ⟨false, false⟩))
     (fun p hp => by
        have hpe : p = (CAct.cancelRet, []) := by simpa using hp
        rw [hpe]
        decide)
     (CAct.cancelRet, []) (List.mem_cons_self _ _)⟩

/-- C5: the channel is a single slot, so after any sequence of deposits and
takes it holds at most one pending token; and a deposit attempted while a
token is stored fails with AlreadyPending, leaving the stored token exactly
as it was rather than overwriting it. -/
theorem C5_at_most_one (ops : List ChanOp) (slot : Option Nat) (t u : Nat)
    (h : slot = some u) :
    pendingCount (chanRun none ops) ≤ 1 ∧
    deposit slot t = (some u, DepositResult.alreadyPending) := by
  constructor
  · cases chanRun none ops <;> simp [pendingCount]
  · subst h
    rfl

/-- Witness for C5: two deposits and a take, and a deposit of 7 against a
slot holding 5. -/
theorem C5_at_most_one_witness :
    (some 5 : Option Nat) = some 5 ∧
    (pendingCount (chanRun none [ChanOp.dep 3, ChanOp.dep 4, ChanOp.take]) ≤ 1 ∧
     deposit (some 5) 7 = (some 5, DepositResult.alreadyPending)) :=
  ⟨rfl, C5_at_most_one [ChanOp.dep 3, ChanOp.dep 4, ChanOp.take] (some 5) 7 5 rfl⟩

/-- C6: enable and disable are idempotent at the pipeline level — an enable
of an already-enabled pipeline and a disable of an already-disabled pipeline
are exact no-ops, so in particular a repeated enable never reaches
vkms_enable_vblank (and so never hrtimer_start) a second time while the
timer is running, and a repeated disable never reaches vkms_disable_vblank
a second time. -/
theorem C6_idempotent (now : Nat) (p q : Pipe)
    (hp : p.vblankOn = true) (hq : q.vblankOn = false) :
    vkms_crtc_atomic_enable now p = p ∧ vkms_crtc_atomic_disable q = q := by
  constructor
  · simp [vkms_crtc_atomic_enable, hp]
  · simp [vkms_crtc_atomic_disable, hq]

/-- Witness for C6 at an enabled pipeline with one recorded start, and a
disabled pipeline with one start and one stop. -/
theorem C6_idempotent_witness :
    (⟨true, hrtimer_init ClockId.monotonic HrtimerMode.rel, 1, 0⟩ : Pipe).vblankOn = true ∧
    (⟨false, hrtimer_init ClockId.monotonic HrtimerMode.rel, 1, 1⟩ : Pipe).vblankOn = false ∧
    (vkms_crtc_atomic_enable 0 ⟨true, hrtimer_init ClockId.monotonic HrtimerMode.rel, 1, 0⟩ =
       ⟨true, hrtimer_init ClockId.monotonic HrtimerMode.rel, 1, 0⟩ ∧
     vkms_crtc_atomic_disable ⟨false, hrtimer_init ClockId.monotonic HrtimerMode.rel, 1, 1⟩ =
       ⟨false, hrtimer_init ClockId.monotonic HrtimerMode.rel, 1, 1⟩) :=
  ⟨rfl, rfl, C6_idempotent 0 _ _ rfl rfl⟩

/-- C9: the timer callback's action list always contains the
HRTIMER_RESTART return and no other return value, regardless of the deadline
and fire time (the device and pipeline state are not even consulted); and
the only entry point whose step can move the timer to the stopped state is
the disable path — every other step leaves an already-running timer
running. -/
theorem C9_restart_unconditional (e now : Nat) (d : Dev) (a : Act)
    (h : (step d a).1.timer = TimerState.stopped) :
    CbAct.ret HrtimerRestart.restart ∈ vkms_vblank_simulate e now ∧
    (∀ r, CbAct.ret r ∈ vkms_vblank_simulate e now → r = HrtimerRestart.restart) ∧
    (d.timer = TimerState.stopped ∨ a = Act.disable) := by
  refine ⟨by simp [vkms_vblank_simulate], ?_, ?_⟩
  · intro r hr
    simp [vkms_vblank_simulate] at hr
    exact hr
  · cases a with
    | enable =>
        by_cases hd : d.enabled
        · left
          simpa [step, hd] using h
        · exfalso
          simp [step, hd] at h
    | disable => right; rfl
    | commit ev => left; simpa [step] using h
    | fire late =>
        cases htimer : d.timer with
        | stopped => left; rfl
        | running ex =>
            exfalso
            simp [step, htimer] at h

/-- Witness for C9: the disable action from the initial device state. -/
theorem C9_restart_unconditional_witness :
    CbAct.ret HrtimerRestart.restart ∈ vkms_vblank_simulate 0 0 ∧
    (∀ r, CbAct.ret r ∈ vkms_vblank_simulate 0 0 → r = HrtimerRestart.restart) ∧
    (initDev.timer = TimerState.stopped ∨ Act.disable = Act.disable) :=
  C9_restart_unconditional 0 0 initDev Act.disable (by decide)

end Vkms
